import Mathlib

/-!
Verification of the imgui_vulkan integration layer.

The C++ sources (src/src/imgui_vulkan.cpp, src/include/imgui_vulkan/imgui_vulkan.hpp)
are shallowly embedded here.  Machine integers (VkResult is a 32-bit signed enum,
the indices in ImGui_ImplVulkanH_Window are uint32_t) are modelled as Int / Nat
with explicit reduction modulo 2^32 where overflow matters.  Calls into the
external Vulkan / SDL / ImGui libraries are modelled by driver records that
supply the values those calls would return, and by explicit traces of the calls
made; external mutation of library-owned structures is modelled by arbitrary
functions passed as parameters.  Exceptions are modelled with Except.
-/

namespace ImguiVulkan

/-! ### Constants from the Vulkan / SDL headers -/

def VK_SUCCESS : Int := 0
def VK_ERROR_OUT_OF_DATE_KHR : Int := -1000001004
def VK_SUBOPTIMAL_KHR : Int := 1000001003
def VK_PHYSICAL_DEVICE_TYPE_DISCRETE_GPU : Int := 2
def VK_QUEUE_GRAPHICS_BIT : Nat := 1
def SDL_QUIT : Nat := 256
def SDL_WINDOWEVENT : Nat := 512
def SDL_WINDOWEVENT_CLOSE : Nat := 14

/-- Embedding of `GUIError` from imgui_vulkan.hpp: a `std::runtime_error` carrying an `int`
error code (the `std::source_location` member is not modelled).  `msg` is the
`what()` string, `error` the value returned by `error()`. -/
structure GUIError where
  msg : String
  error : Int
  deriving DecidableEq, Repr

/-- The `case` labels of the `switch` in `vk_result_string`
(src/src/imgui_vulkan.cpp lines 149-175), as (numeric value, name) pairs.
Numeric values are those of the `VkResult` enumerators in vulkan_core.h. -/
def vkResultNames : List (Int × String) :=
  [ (0, "VK_SUCCESS"),
    (-1, "VK_ERROR_OUT_OF_HOST_MEMORY"),
    (-4, "VK_ERROR_DEVICE_LOST"),
    (-7, "VK_ERROR_EXTENSION_NOT_PRESENT"),
    (-10, "VK_ERROR_TOO_MANY_OBJECTS"),
    (-13, "VK_ERROR_UNKNOWN"),
    (-1000161000, "VK_ERROR_FRAGMENTATION"),
    (-1000000000, "VK_ERROR_SURFACE_LOST_KHR"),
    (1000001003, "VK_SUBOPTIMAL_KHR"),
    (-1000003001, "VK_ERROR_INCOMPATIBLE_DISPLAY_KHR"),
    (-1000012000, "VK_ERROR_INVALID_SHADER_NV"),
    (-1000174001, "VK_ERROR_NOT_PERMITTED_EXT"),
    (1000268000, "VK_THREAD_IDLE_KHR"),
    (1000268003, "VK_OPERATION_NOT_DEFERRED_KHR"),
    (-1000069000, "VK_ERROR_OUT_OF_POOL_MEMORY_KHR"),
    (-1000072003, "VK_ERROR_INVALID_EXTERNAL_HANDLE_KHR"),
    (-1000257000, "VK_ERROR_INVALID_DEVICE_ADDRESS_EXT"),
    (1000297000, "VK_ERROR_PIPELINE_COMPILE_REQUIRED_EXT"),
    (2147483647, "VK_RESULT_MAX_ENUM") ]

/-- Function `vk_result_string` (imgui_vulkan.cpp lines 149-175): a `switch` over the
listed `VkResult` values, with default label returning "VK_UNKNOWN_ERROR". -/
def vk_result_string (err : Int) : String :=
  ((vkResultNames.lookup err).getD "VK_UNKNOWN_ERROR")

/-- The observable outcome of `Vulkan::check_vk_result`: return normally with
no effect, print a warning line to stderr and return, or throw a `GUIError`. -/
inductive CheckOutcome where
  | ok : CheckOutcome
  | warned (line : String) : CheckOutcome
  | raised (e : GUIError) : CheckOutcome
  deriving DecidableEq, Repr

/-- Function `Vulkan::check_vk_result` (imgui_vulkan.cpp lines 177-185): returns when
`err == 0`; otherwise takes the string for `err`; throws `GUIError(str, err)`
when `err < 0`, else prints `"[vulkan] Error: VkResult = %s\n"` to stderr. -/
def check_vk_result (err : Int) : CheckOutcome :=
  if err = 0 then .ok
  else
    let str := vk_result_string err
    if err < 0 then .raised ⟨str, err⟩
    else .warned ("[vulkan] Error: VkResult = " ++ str ++ "\n")

/-- C1: `check_vk_result err` returns normally with no effect when `err = 0`;
throws a `GUIError` whose `error()` is `err` and whose message is the name of
`err` from the listed codes, or "VK_UNKNOWN_ERROR" for unlisted codes, when
`err < 0`; and prints a warning and returns normally when `err > 0`. -/
theorem check_vk_result_spec (err : Int) :
    (err = 0 → check_vk_result err = .ok) ∧
    (err < 0 → check_vk_result err = .raised ⟨vk_result_string err, err⟩ ∧
      (∀ s, vkResultNames.lookup err = some s → vk_result_string err = s) ∧
      (vkResultNames.lookup err = none → vk_result_string err = "VK_UNKNOWN_ERROR")) ∧
    (0 < err →
      check_vk_result err = .warned ("[vulkan] Error: VkResult = " ++ vk_result_string err ++ "\n")) := by
  refine ⟨fun h => by simp [check_vk_result, h], fun h => ?_, fun h => ?_⟩
  · have hne : err ≠ 0 := by omega
    refine ⟨by simp [check_vk_result, hne, h], fun s hs => ?_, fun hn => ?_⟩
    · simp [vk_result_string, hs]
    · simp [vk_result_string, hn]
  · have hne : err ≠ 0 := by omega
    have hnl : ¬ err < 0 := by omega
    simp [check_vk_result, hne, hnl]

/-- Witness for C1 at the concrete inputs 0, -4 (VK_ERROR_DEVICE_LOST),
-2 (an unlisted negative code) and 5 (an unlisted positive code). -/
theorem check_vk_result_spec_witness :
    check_vk_result 0 = .ok ∧
    check_vk_result (-4) = .raised ⟨vk_result_string (-4), -4⟩ ∧
    vk_result_string (-2) = "VK_UNKNOWN_ERROR" ∧
    check_vk_result 5 = .warned ("[vulkan] Error: VkResult = " ++ vk_result_string 5 ++ "\n") := by
  refine ⟨(check_vk_result_spec 0).1 rfl,
    ((check_vk_result_spec (-4)).2.1 (by norm_num)).1,
    ((check_vk_result_spec (-2)).2.1 (by norm_num)).2.2 (by decide),
    (check_vk_result_spec 5).2.2 (by norm_num)⟩

/-! ### The `Vulkan` constructor (imgui_vulkan.cpp lines 187-322)

The constructor talks to the Vulkan driver.  A `Driver` record supplies the
`VkResult` each fallible call would return and the data each enumeration
would produce; the constructor is embedded as a function from a `Driver` to
the list of Vulkan calls it makes (in order) together with either the thrown
`GUIError` or the member state it establishes.  The `_DEBUG` build paths
(validation layer / debug report) are compiled out and are not modelled. -/

/-- A physical device handle together with the `deviceType` field of the
`VkPhysicalDeviceProperties` the driver reports for it. -/
structure Gpu where
  id : Nat
  deviceType : Int
  deriving DecidableEq, Repr

/-- A queue family, reduced to the `queueFlags` field inspected by the code. -/
structure QueueFamily where
  queueFlags : Nat
  deriving DecidableEq, Repr

/-- Responses of the external Vulkan library to the calls the constructor
makes.  Both `vkEnumeratePhysicalDevices` calls report `gpus.length` devices
(a consistent driver). -/
structure Driver where
  createInstanceResult : Int
  enumerateCountResult : Int
  enumerateDataResult : Int
  gpus : List Gpu
  queueFamilies : List QueueFamily
  createDeviceResult : Int
  createDescriptorPoolResult : Int
  deriving DecidableEq, Repr

/-- The Vulkan API calls the constructor makes, in the order made.  Argument
payloads record the data the claims talk about (which device handle is passed
on, the queue family index, and the descriptor pool sizing). -/
inductive VkCall where
  | createInstance : VkCall
  | enumeratePhysicalDevicesCount : VkCall
  | enumeratePhysicalDevicesData : VkCall
  | getPhysicalDeviceProperties (gpu : Gpu) : VkCall
  | getQueueFamilyPropertiesCount (device : Option Gpu) : VkCall
  | getQueueFamilyPropertiesData (device : Option Gpu) : VkCall
  | createDevice (device : Option Gpu) (queueFamily : Nat) (queueCreateInfoCount : Nat) : VkCall
  | getDeviceQueue (queueFamily : Nat) : VkCall
  | createDescriptorPool (maxSets : Nat) (poolSizeCount : Nat) : VkCall
  deriving DecidableEq, Repr

/-- The member fields of `Vulkan` that carry state the claims mention
(handles that merely point at library objects are reduced to the data
recorded about them).  `queue_family_` is uint32_t, initially UINT32_MAX. -/
structure VulkanMembers where
  physical_device_ : Option Gpu := none
  queue_family_ : Nat := 4294967295
  min_image_count_ : Nat := 2
  swap_chain_rebuild_ : Bool := false
  deriving DecidableEq, Repr

/-- Control flow view of `check_vk_result`: `some e` when it throws
`GUIError e` (i.e. `err < 0`), `none` when it returns (warning or not). -/
def vk_check (err : Int) : Option GUIError :=
  match check_vk_result err with
  | .raised e => some e
  | _ => none

/-- The GPU-selection loop (imgui_vulkan.cpp lines 252-259): `physical_device_`
is assigned the first enumerated device whose `deviceType` is
`VK_PHYSICAL_DEVICE_TYPE_DISCRETE_GPU`, then the loop breaks; if no device is
discrete the member keeps its initial `nullptr` value. -/
def selectGpu : List Gpu → Option Gpu
  | [] => none
  | gpu :: rest =>
    if gpu.deviceType = VK_PHYSICAL_DEVICE_TYPE_DISCRETE_GPU then some gpu
    else selectGpu rest

/-- The devices the selection loop queries `vkGetPhysicalDeviceProperties` on:
every device up to and including the first discrete one (the loop breaks
there), or all of them when none is discrete. -/
def gpuLoopVisited : List Gpu → List Gpu
  | [] => []
  | gpu :: rest =>
    if gpu.deviceType = VK_PHYSICAL_DEVICE_TYPE_DISCRETE_GPU then [gpu]
    else gpu :: gpuLoopVisited rest

/-- The `std::ranges::find_if` over the queue families followed by the iterator
subtraction (imgui_vulkan.cpp lines 268-272): index of the first family whose
`queueFlags` has `VK_QUEUE_GRAPHICS_BIT` set. -/
def findGraphicsQueue (queues : List QueueFamily) : Option Nat :=
  queues.findIdx? (fun q => (q.queueFlags &&& VK_QUEUE_GRAPHICS_BIT) != 0)

/-- The `pool_sizes` array of the descriptor-pool block (imgui_vulkan.cpp
lines 299-311): (VkDescriptorType value, descriptorCount) pairs. -/
def pool_sizes : List (Int × Nat) :=
  [ (0, 1000), (1, 1000), (2, 1000), (3, 1000), (4, 1000), (5, 1000),
    (6, 1000), (7, 1000), (8, 1000), (9, 1000), (10, 1000) ]

/-- Constructor `Vulkan::Vulkan` (imgui_vulkan.cpp lines 187-322), non-debug build:
instance creation, GPU enumeration and selection, graphics queue family
selection, logical device creation, descriptor pool creation, each followed
by `check_vk_result` on its error code.  Returns the calls made (in order)
and either the thrown `GUIError` or the established member state. -/
def vulkanCtor (drv : Driver) : List VkCall × Except GUIError VulkanMembers :=
  -- Create Vulkan Instance
  let t0 := [VkCall.createInstance]
  match vk_check drv.createInstanceResult with
  | some e => (t0, .error e)
  | none =>
    -- Select GPU
    let t1 := t0 ++ [VkCall.enumeratePhysicalDevicesCount]
    match vk_check drv.enumerateCountResult with
    | some e => (t1, .error e)
    | none =>
      if drv.gpus.length = 0 then (t1, .error ⟨"Could not find any GPUs!", -1⟩)
      else
        let t2 := t1 ++ [VkCall.enumeratePhysicalDevicesData]
        match vk_check drv.enumerateDataResult with
        | some e => (t2, .error e)
        | none =>
          let t3 := t2 ++ (gpuLoopVisited drv.gpus).map VkCall.getPhysicalDeviceProperties
          let pd := selectGpu drv.gpus
          -- Select graphics queue family
          let t4 := t3 ++ [VkCall.getQueueFamilyPropertiesCount pd,
                           VkCall.getQueueFamilyPropertiesData pd]
          match findGraphicsQueue drv.queueFamilies with
          | none => (t4, .error ⟨"Could not find graphics queue", -1⟩)
          | some qf =>
            -- Create Logical Device (with 1 queue)
            let t5 := t4 ++ [VkCall.createDevice pd qf 1]
            match vk_check drv.createDeviceResult with
            | some e => (t5, .error e)
            | none =>
              let t6 := t5 ++ [VkCall.getDeviceQueue qf]
              -- Create Descriptor Pool
              let t7 := t6 ++ [VkCall.createDescriptorPool (1000 * pool_sizes.length) pool_sizes.length]
              match vk_check drv.createDescriptorPoolResult with
              | some e => (t7, .error e)
              | none =>
                (t7, .ok { physical_device_ := pd, queue_family_ := qf,
                           min_image_count_ := 2, swap_chain_rebuild_ := false })

/-- Whether a device's reported `deviceType` is the discrete-GPU enumerator. -/
def isDiscrete (g : Gpu) : Prop := g.deviceType = VK_PHYSICAL_DEVICE_TYPE_DISCRETE_GPU

instance (g : Gpu) : Decidable (isDiscrete g) := by
  unfold isDiscrete
  infer_instance

theorem vk_check_eq_none {err : Int} (h : 0 ≤ err) : vk_check err = none := by
  rcases eq_or_lt_of_le h with h0 | hp
  · simp [vk_check, check_vk_result, h0.symm]
  · have hne : err ≠ 0 := by omega
    have hnl : ¬ err < 0 := by omega
    simp [vk_check, check_vk_result, hne, hnl]

theorem vk_check_eq_some {err : Int} (h : err < 0) :
    vk_check err = some ⟨vk_result_string err, err⟩ := by
  have hne : err ≠ 0 := by omega
  simp [vk_check, check_vk_result, hne, h]

theorem selectGpu_first {gpus : List Gpu} (h : ∃ g ∈ gpus, isDiscrete g) :
    ∃ pre g0 post, gpus = pre ++ g0 :: post ∧ isDiscrete g0 ∧
      (∀ x ∈ pre, ¬ isDiscrete x) ∧ selectGpu gpus = some g0 := by
  induction gpus with
  | nil => simp at h
  | cons g rest ih =>
    by_cases hg : isDiscrete g
    · refine ⟨[], g, rest, rfl, hg, by simp, ?_⟩
      have hg2 : g.deviceType = VK_PHYSICAL_DEVICE_TYPE_DISCRETE_GPU := hg
      simp [selectGpu, hg2]
    · obtain ⟨g1, hmem, hd⟩ := h
      rcases List.mem_cons.mp hmem with heq | hmem
      · exact absurd (heq ▸ hd) hg
      · obtain ⟨pre, g0, post, hsplit, hd0, hpre, hsel⟩ := ih ⟨g1, hmem, hd⟩
        refine ⟨g :: pre, g0, post, by simp [hsplit], hd0, ?_, ?_⟩
        · intro x hx
          rcases List.mem_cons.mp hx with rfl | hx
          · exact hg
          · exact hpre x hx
        · have hg2 : ¬ g.deviceType = VK_PHYSICAL_DEVICE_TYPE_DISCRETE_GPU := hg
          simp [selectGpu, hg2, hsel]

theorem selectGpu_none {gpus : List Gpu} (h : ∀ g ∈ gpus, ¬ isDiscrete g) :
    selectGpu gpus = none := by
  induction gpus with
  | nil => rfl
  | cons g rest ih =>
    have hg : ¬ g.deviceType = VK_PHYSICAL_DEVICE_TYPE_DISCRETE_GPU := h g (by simp)
    simp [selectGpu, hg]
    exact ih fun x hx => h x (by simp [hx])

theorem vulkanCtor_ok_state {drv : Driver} {st : VulkanMembers}
    (h : (vulkanCtor drv).2 = Except.ok st) :
    st.physical_device_ = selectGpu drv.gpus ∧ st.min_image_count_ = 2 ∧
      st.swap_chain_rebuild_ = false ∧
      findGraphicsQueue drv.queueFamilies = some st.queue_family_ := by
  unfold vulkanCtor at h
  repeat' split at h
  all_goals simp_all
  subst h
  simp

theorem vulkanCtor_mem_queueFamilyCall {drv : Driver}
    (h1 : 0 ≤ drv.createInstanceResult) (h2 : 0 ≤ drv.enumerateCountResult)
    (h3 : 0 ≤ drv.enumerateDataResult) (hne : drv.gpus ≠ []) :
    VkCall.getQueueFamilyPropertiesCount (selectGpu drv.gpus) ∈ (vulkanCtor drv).1 := by
  have hlen : ¬ drv.gpus.length = 0 := by simpa using hne
  simp only [vulkanCtor, vk_check_eq_none h1, vk_check_eq_none h2, vk_check_eq_none h3,
    hlen, if_false]
  repeat' split
  all_goals simp

/-- C2: with the enumeration error codes checked clean, the constructor throws
`GUIError("Could not find any GPUs!")` when zero devices are reported, and
when some reported device is a discrete GPU it selects the first such device:
`physical_device_` is that device in the constructed state, and the very next
Vulkan call (queue family query) receives it. -/
theorem vulkan_ctor_gpu_selection (drv : Driver)
    (h1 : 0 ≤ drv.createInstanceResult) (h2 : 0 ≤ drv.enumerateCountResult) :
    (drv.gpus = [] → (vulkanCtor drv).2 = .error ⟨"Could not find any GPUs!", -1⟩) ∧
    ((∃ g ∈ drv.gpus, isDiscrete g) →
      ∃ pre g0 post, drv.gpus = pre ++ g0 :: post ∧ isDiscrete g0 ∧
        (∀ x ∈ pre, ¬ isDiscrete x) ∧
        (0 ≤ drv.enumerateDataResult →
          VkCall.getQueueFamilyPropertiesCount (some g0) ∈ (vulkanCtor drv).1) ∧
        (∀ st, (vulkanCtor drv).2 = .ok st → st.physical_device_ = some g0)) := by
  constructor
  · intro hz
    simp only [vulkanCtor, vk_check_eq_none h1, vk_check_eq_none h2, hz]
    simp
  · intro hd
    obtain ⟨pre, g0, post, hsplit, hd0, hpre, hsel⟩ := selectGpu_first hd
    have hne : drv.gpus ≠ [] := by
      intro hz
      rw [hz] at hd
      simp at hd
    refine ⟨pre, g0, post, hsplit, hd0, hpre, fun h3 => ?_, fun st hok => ?_⟩
    · have := vulkanCtor_mem_queueFamilyCall h1 h2 h3 hne
      rwa [hsel] at this
    · rw [(vulkanCtor_ok_state hok).1, hsel]

/-- Witness for C2: a two-device driver whose second device is discrete. -/
theorem vulkan_ctor_gpu_selection_witness :
    ((Driver.mk 0 0 0 [⟨0, 1⟩, ⟨1, 2⟩] [⟨1⟩] 0 0).gpus = [] →
      (vulkanCtor (Driver.mk 0 0 0 [⟨0, 1⟩, ⟨1, 2⟩] [⟨1⟩] 0 0)).2 =
        .error ⟨"Could not find any GPUs!", -1⟩) ∧
    ((∃ g ∈ (Driver.mk 0 0 0 [⟨0, 1⟩, ⟨1, 2⟩] [⟨1⟩] 0 0).gpus, isDiscrete g) →
      ∃ pre g0 post,
        (Driver.mk 0 0 0 [⟨0, 1⟩, ⟨1, 2⟩] [⟨1⟩] 0 0).gpus = pre ++ g0 :: post ∧
        isDiscrete g0 ∧ (∀ x ∈ pre, ¬ isDiscrete x) ∧
        (0 ≤ (Driver.mk 0 0 0 [⟨0, 1⟩, ⟨1, 2⟩] [⟨1⟩] 0 0).enumerateDataResult →
          VkCall.getQueueFamilyPropertiesCount (some g0) ∈
            (vulkanCtor (Driver.mk 0 0 0 [⟨0, 1⟩, ⟨1, 2⟩] [⟨1⟩] 0 0)).1) ∧
        (∀ st, (vulkanCtor (Driver.mk 0 0 0 [⟨0, 1⟩, ⟨1, 2⟩] [⟨1⟩] 0 0)).2 = .ok st →
          st.physical_device_ = some g0)) :=
  vulkan_ctor_gpu_selection (Driver.mk 0 0 0 [⟨0, 1⟩, ⟨1, 2⟩] [⟨1⟩] 0 0)
    (by decide) (by decide)

/-- C8: when devices are enumerated but none is discrete, no fallback occurs:
the selection loop leaves `physical_device_` null, the constructor proceeds to
query queue family properties passing that null handle, and any state it
constructs has a null `physical_device_`. -/
theorem vulkan_ctor_no_discrete_no_fallback (drv : Driver)
    (h1 : 0 ≤ drv.createInstanceResult) (h2 : 0 ≤ drv.enumerateCountResult)
    (h3 : 0 ≤ drv.enumerateDataResult)
    (hne : drv.gpus ≠ []) (hnd : ∀ g ∈ drv.gpus, ¬ isDiscrete g) :
    selectGpu drv.gpus = none ∧
    VkCall.getQueueFamilyPropertiesCount none ∈ (vulkanCtor drv).1 ∧
    (∀ st, (vulkanCtor drv).2 = .ok st → st.physical_device_ = none) := by
  have hnone := selectGpu_none hnd
  refine ⟨hnone, ?_, fun st hok => ?_⟩
  · have := vulkanCtor_mem_queueFamilyCall h1 h2 h3 hne
    rwa [hnone] at this
  · rw [(vulkanCtor_ok_state hok).1, hnone]

/-- Witness for C8: two devices, both integrated (deviceType 1 and 0). -/
theorem vulkan_ctor_no_discrete_no_fallback_witness :
    selectGpu (Driver.mk 0 0 0 [⟨0, 1⟩, ⟨1, 0⟩] [⟨1⟩] 0 0).gpus = none ∧
    VkCall.getQueueFamilyPropertiesCount none ∈
      (vulkanCtor (Driver.mk 0 0 0 [⟨0, 1⟩, ⟨1, 0⟩] [⟨1⟩] 0 0)).1 ∧
    (∀ st, (vulkanCtor (Driver.mk 0 0 0 [⟨0, 1⟩, ⟨1, 0⟩] [⟨1⟩] 0 0)).2 = .ok st →
      st.physical_device_ = none) :=
  vulkan_ctor_no_discrete_no_fallback (Driver.mk 0 0 0 [⟨0, 1⟩, ⟨1, 0⟩] [⟨1⟩] 0 0)
    (by decide) (by decide) (by decide) (by decide) (by decide)

/-- C7: the constructor's calls happen strictly in the order instance
creation, physical device enumeration and selection, graphics queue family
selection, logical device creation (one queue), descriptor pool creation with
`maxSets = 1000 *` (number of pool sizes) `= 11000`; and a step is reached
only after every preceding error code was checked without throwing (a
negative code cuts the call sequence at the step that produced it). -/
theorem vulkan_ctor_sequence (drv : Driver) :
    (0 ≤ drv.createInstanceResult → 0 ≤ drv.enumerateCountResult → drv.gpus ≠ [] →
      0 ≤ drv.enumerateDataResult →
      ∀ qf, findGraphicsQueue drv.queueFamilies = some qf →
      0 ≤ drv.createDeviceResult →
      (vulkanCtor drv).1 =
        [VkCall.createInstance,
         VkCall.enumeratePhysicalDevicesCount,
         VkCall.enumeratePhysicalDevicesData]
        ++ (gpuLoopVisited drv.gpus).map VkCall.getPhysicalDeviceProperties
        ++ [VkCall.getQueueFamilyPropertiesCount (selectGpu drv.gpus),
            VkCall.getQueueFamilyPropertiesData (selectGpu drv.gpus),
            VkCall.createDevice (selectGpu drv.gpus) qf 1,
            VkCall.getDeviceQueue qf,
            VkCall.createDescriptorPool 11000 11]) ∧
    (drv.createInstanceResult < 0 → (vulkanCtor drv).1 = [VkCall.createInstance]) ∧
    (0 ≤ drv.createInstanceResult → drv.enumerateCountResult < 0 →
      (vulkanCtor drv).1 =
        [VkCall.createInstance, VkCall.enumeratePhysicalDevicesCount]) ∧
    (0 ≤ drv.createInstanceResult → 0 ≤ drv.enumerateCountResult → drv.gpus ≠ [] →
      drv.enumerateDataResult < 0 →
      (vulkanCtor drv).1 =
        [VkCall.createInstance, VkCall.enumeratePhysicalDevicesCount,
         VkCall.enumeratePhysicalDevicesData]) ∧
    (0 ≤ drv.createInstanceResult → 0 ≤ drv.enumerateCountResult → drv.gpus ≠ [] →
      0 ≤ drv.enumerateDataResult →
      ∀ qf, findGraphicsQueue drv.queueFamilies = some qf →
      drv.createDeviceResult < 0 →
      (vulkanCtor drv).1 =
        [VkCall.createInstance,
         VkCall.enumeratePhysicalDevicesCount,
         VkCall.enumeratePhysicalDevicesData]
        ++ (gpuLoopVisited drv.gpus).map VkCall.getPhysicalDeviceProperties
        ++ [VkCall.getQueueFamilyPropertiesCount (selectGpu drv.gpus),
            VkCall.getQueueFamilyPropertiesData (selectGpu drv.gpus),
            VkCall.createDevice (selectGpu drv.gpus) qf 1]) := by
  refine ⟨fun h1 h2 hne h3 qf hqf h4 => ?_, fun h1 => ?_, fun h1 h2 => ?_,
    fun h1 h2 hne h3 => ?_, fun h1 h2 hne h3 qf hqf h4 => ?_⟩
  · have hlen : ¬ drv.gpus.length = 0 := by simpa using hne
    simp only [vulkanCtor, vk_check_eq_none h1, vk_check_eq_none h2, vk_check_eq_none h3,
      vk_check_eq_none h4, hqf, hlen, if_false]
    split
    all_goals simp [pool_sizes]
  · simp [vulkanCtor, vk_check_eq_some h1]
  · simp [vulkanCtor, vk_check_eq_none h1, vk_check_eq_some h2]
  · have hlen : ¬ drv.gpus.length = 0 := by simpa using hne
    simp only [vulkanCtor, vk_check_eq_none h1, vk_check_eq_none h2, vk_check_eq_some h3,
      hlen, if_false]
    simp
  · have hlen : ¬ drv.gpus.length = 0 := by simpa using hne
    simp only [vulkanCtor, vk_check_eq_none h1, vk_check_eq_none h2, vk_check_eq_none h3,
      vk_check_eq_some h4, hqf, hlen, if_false]
    simp

/-- Witness for C7: the all-success driver with one discrete GPU; and the
instance-creation-fails driver (VK_ERROR_DEVICE_LOST), whose call sequence
stops at `vkCreateInstance`. -/
theorem vulkan_ctor_sequence_witness :
    (vulkanCtor (Driver.mk 0 0 0 [⟨7, 2⟩] [⟨1⟩] 0 0)).1 =
      [VkCall.createInstance,
       VkCall.enumeratePhysicalDevicesCount,
       VkCall.enumeratePhysicalDevicesData]
      ++ (gpuLoopVisited (Driver.mk 0 0 0 [⟨7, 2⟩] [⟨1⟩] 0 0).gpus).map
           VkCall.getPhysicalDeviceProperties
      ++ [VkCall.getQueueFamilyPropertiesCount
            (selectGpu (Driver.mk 0 0 0 [⟨7, 2⟩] [⟨1⟩] 0 0).gpus),
          VkCall.getQueueFamilyPropertiesData
            (selectGpu (Driver.mk 0 0 0 [⟨7, 2⟩] [⟨1⟩] 0 0).gpus),
          VkCall.createDevice (selectGpu (Driver.mk 0 0 0 [⟨7, 2⟩] [⟨1⟩] 0 0).gpus) 0 1,
          VkCall.getDeviceQueue 0,
          VkCall.createDescriptorPool 11000 11] ∧
    (vulkanCtor (Driver.mk (-4) 0 0 [⟨7, 2⟩] [⟨1⟩] 0 0)).1 = [VkCall.createInstance] :=
  ⟨(vulkan_ctor_sequence (Driver.mk 0 0 0 [⟨7, 2⟩] [⟨1⟩] 0 0)).1 (by decide) (by decide)
      (by decide) (by decide) 0 (by decide) (by decide),
    (vulkan_ctor_sequence (Driver.mk (-4) 0 0 [⟨7, 2⟩] [⟨1⟩] 0 0)).2.1 (by decide)⟩

/-! ### Per-window state: `main_window_data_`, present / resize / render

`ImGui_ImplVulkanH_Window` is owned by the ImGui Vulkan backend; the fields
the repository's code reads or writes are `FrameIndex`, `SemaphoreIndex` and
`ImageCount` (all uint32_t).  The remaining contents of the structure are
abstracted into `rest`, a counter that external library calls may change.
External library calls that mutate the whole structure
(`ImGui_ImplVulkanH_CreateOrResizeWindow`, `ImGui_ImplVulkanH_DestroyWindow`)
are modelled as arbitrary functions on this structure. -/

/-- The fields of `ImGui_ImplVulkanH_Window` used by the code, plus an
abstract `rest` standing for all other fields.  A default-constructed
window structure is all zeros. -/
structure WindowData where
  FrameIndex : Nat := 0
  SemaphoreIndex : Nat := 0
  ImageCount : Nat := 0
  rest : Nat := 0
  deriving DecidableEq, Repr

/-- A `Vulkan` object: its scalar members plus its `main_window_data_`. -/
structure VulkanObj where
  members : VulkanMembers
  wd : WindowData
  deriving DecidableEq, Repr

/-- Member function `Vulkan::present_frame` (imgui_vulkan.cpp lines 386-404) acting on the
object state, given the `VkResult` that `vkQueuePresentKHR` would return.
The second component records whether `vkQueuePresentKHR` was called.
The uint32_t increment of `SemaphoreIndex` is reduced modulo 2^32 before the
`% ImageCount`. -/
def present_frame (o : VulkanObj) (presentErr : Int) : Except GUIError (VulkanObj × Bool) :=
  if o.members.swap_chain_rebuild_ then .ok (o, false)
  else if presentErr = VK_ERROR_OUT_OF_DATE_KHR ∨ presentErr = VK_SUBOPTIMAL_KHR then
    .ok ({ o with members := { o.members with swap_chain_rebuild_ := true } }, true)
  else
    match check_vk_result presentErr with
    | .raised e => .error e
    | _ =>
      .ok ({ o with wd := { o.wd with
               SemaphoreIndex := ((o.wd.SemaphoreIndex + 1) % 4294967296) % o.wd.ImageCount } },
           true)

/-- Member function `Vulkan::maybe_resize_swap_chain` (imgui_vulkan.cpp lines 534-545), given
the window size `SDL_GetWindowSize` would report and the effect `resize` of
`ImGui_ImplVulkanH_CreateOrResizeWindow` on the window structure.  The second
component records whether the swapchain was rebuilt (i.e. whether
`ImGui_ImplVulkan_SetMinImageCount` and `ImGui_ImplVulkanH_CreateOrResizeWindow`
were called). -/
def maybe_resize_swap_chain (o : VulkanObj) (width height : Int)
    (resize : WindowData → WindowData) : VulkanObj × Bool :=
  if ¬ o.members.swap_chain_rebuild_ then (o, false)
  else if width > 0 ∧ height > 0 then
    ({ members := { o.members with swap_chain_rebuild_ := false },
       wd := { resize o.wd with FrameIndex := 0 } }, true)
  else (o, false)

/-- Member function `Vulkan::render_frame` (imgui_vulkan.cpp lines 406-480) reduced to its
effect on the modelled state: `vkAcquireNextImageKHR` writes `FrameIndex` and
returns `acquireErr`; out-of-date / suboptimal set `swap_chain_rebuild_` and
return early; otherwise the acquire result and then the fence / command-buffer
/ submit results (`restErrs`, in call order) go through `check_vk_result`. -/
def render_frame (o : VulkanObj) (acquireErr : Int) (acquiredIndex : Nat)
    (restErrs : List Int) : Except GUIError VulkanObj :=
  let o1 : VulkanObj := { o with wd := { o.wd with FrameIndex := acquiredIndex } }
  if acquireErr = VK_ERROR_OUT_OF_DATE_KHR ∨ acquireErr = VK_SUBOPTIMAL_KHR then
    .ok { o1 with members := { o1.members with swap_chain_rebuild_ := true } }
  else
    match check_vk_result acquireErr with
    | .raised e => .error e
    | _ =>
      match restErrs.findSome? vk_check with
      | some e => .error e
      | none => .ok o1

/-- Member function `Vulkan::setup_window` (imgui_vulkan.cpp lines 324-364): WSI support
check, surface format / present mode selection (external, folded into
`resize`), the `min_image_count_ < 2` guard, and
`ImGui_ImplVulkanH_CreateOrResizeWindow`. -/
def setup_window (o : VulkanObj) (wsiSupport : Bool)
    (resize : WindowData → WindowData) : Except GUIError VulkanObj :=
  if ¬ wsiSupport then .error ⟨"Error no WSI support on physical device 0", -1⟩
  else if o.members.min_image_count_ < 2 then
    .error ⟨"Need at least 2 frame buffers for swapping, current: " ++
              toString o.members.min_image_count_, -1⟩
  else .ok { o with wd := resize o.wd }

/-- C5: `present_frame` returns at once, presenting nothing and changing
nothing, when `swap_chain_rebuild_` is already set; when the present call
reports out-of-date or suboptimal it sets `swap_chain_rebuild_` and leaves
`SemaphoreIndex` untouched; and on successful presentation (`VK_SUCCESS`) it
advances `SemaphoreIndex` to `(SemaphoreIndex + 1) % ImageCount`. -/
theorem present_frame_spec (o : VulkanObj) (err : Int) :
    (o.members.swap_chain_rebuild_ = true → present_frame o err = .ok (o, false)) ∧
    (o.members.swap_chain_rebuild_ = false →
      (err = VK_ERROR_OUT_OF_DATE_KHR ∨ err = VK_SUBOPTIMAL_KHR) →
      present_frame o err =
        .ok ({ o with members := { o.members with swap_chain_rebuild_ := true } }, true) ∧
      (∀ o2 b, present_frame o err = .ok (o2, b) →
        o2.wd.SemaphoreIndex = o.wd.SemaphoreIndex)) ∧
    (o.members.swap_chain_rebuild_ = false → err = 0 →
      o.wd.SemaphoreIndex + 1 < 4294967296 →
      present_frame o err =
        .ok ({ o with wd := { o.wd with
                 SemaphoreIndex := (o.wd.SemaphoreIndex + 1) % o.wd.ImageCount } }, true)) := by
  refine ⟨fun h => by simp [present_frame, h], fun h hood => ?_, fun h h0 hlt => ?_⟩
  · constructor
    · simp [present_frame, h, hood]
    · intro o2 b hp
      simp only [present_frame, h, Bool.false_eq_true, if_false, hood, if_true] at hp
      cases hp
      rfl
  · subst h0
    have hne : ¬ ((0 : Int) = VK_ERROR_OUT_OF_DATE_KHR ∨ (0 : Int) = VK_SUBOPTIMAL_KHR) := by
      decide
    simp [present_frame, h, hne, check_vk_result, Nat.mod_eq_of_lt hlt]

/-- Witness for C5: a state with `SemaphoreIndex = 1`, `ImageCount = 3`,
exercised on the rebuild-set path, the suboptimal path, and the success
path. -/
theorem present_frame_spec_witness :
    present_frame ⟨⟨none, 0, 2, true⟩, ⟨0, 1, 3, 0⟩⟩ 0 =
      .ok (⟨⟨none, 0, 2, true⟩, ⟨0, 1, 3, 0⟩⟩, false) ∧
    present_frame ⟨⟨none, 0, 2, false⟩, ⟨0, 1, 3, 0⟩⟩ VK_SUBOPTIMAL_KHR =
      .ok (⟨⟨none, 0, 2, true⟩, ⟨0, 1, 3, 0⟩⟩, true) ∧
    present_frame ⟨⟨none, 0, 2, false⟩, ⟨0, 1, 3, 0⟩⟩ 0 =
      .ok (⟨⟨none, 0, 2, false⟩, ⟨0, 2, 3, 0⟩⟩, true) := by
  refine ⟨(present_frame_spec ⟨⟨none, 0, 2, true⟩, ⟨0, 1, 3, 0⟩⟩ 0).1 rfl, ?_, ?_⟩
  · have h := ((present_frame_spec ⟨⟨none, 0, 2, false⟩, ⟨0, 1, 3, 0⟩⟩
      VK_SUBOPTIMAL_KHR).2.1 rfl (Or.inr rfl)).1
    exact h
  · have h := (present_frame_spec ⟨⟨none, 0, 2, false⟩, ⟨0, 1, 3, 0⟩⟩ 0).2.2 rfl rfl
      (by norm_num)
    simpa using h

/-- C4: `maybe_resize_swap_chain` is a no-op when `swap_chain_rebuild_` is
clear; a no-op leaving the flag set when the flag is set but the queried
width or height is not strictly positive; and when the flag is set and both
dimensions are positive it rebuilds the swapchain, after which `FrameIndex`
is 0 and `swap_chain_rebuild_` is clear. -/
theorem maybe_resize_swap_chain_spec (o : VulkanObj) (w h : Int)
    (resize : WindowData → WindowData) :
    (o.members.swap_chain_rebuild_ = false →
      maybe_resize_swap_chain o w h resize = (o, false)) ∧
    (o.members.swap_chain_rebuild_ = true → (w ≤ 0 ∨ h ≤ 0) →
      maybe_resize_swap_chain o w h resize = (o, false) ∧
      (maybe_resize_swap_chain o w h resize).1.members.swap_chain_rebuild_ = true) ∧
    (o.members.swap_chain_rebuild_ = true → 0 < w → 0 < h →
      (maybe_resize_swap_chain o w h resize).2 = true ∧
      (maybe_resize_swap_chain o w h resize).1.wd.FrameIndex = 0 ∧
      (maybe_resize_swap_chain o w h resize).1.members.swap_chain_rebuild_ = false) := by
  refine ⟨fun hf => by simp [maybe_resize_swap_chain, hf], fun ht hwh => ?_,
    fun ht hw hh => ?_⟩
  · have hno : ¬ (w > 0 ∧ h > 0) := by omega
    constructor
    · simp [maybe_resize_swap_chain, ht, hno]
    · simp [maybe_resize_swap_chain, ht, hno]
  · have hyes : w > 0 ∧ h > 0 := ⟨hw, hh⟩
    simp [maybe_resize_swap_chain, ht, hyes]

/-- Witness for C4: flag set, size 640 x 480 (rebuild happens) and size
0 x 480 (no-op, flag stays set); flag clear (no-op). -/
theorem maybe_resize_swap_chain_spec_witness :
    maybe_resize_swap_chain ⟨⟨none, 0, 2, false⟩, ⟨5, 1, 3, 0⟩⟩ 640 480 id =
      (⟨⟨none, 0, 2, false⟩, ⟨5, 1, 3, 0⟩⟩, false) ∧
    (maybe_resize_swap_chain ⟨⟨none, 0, 2, true⟩, ⟨5, 1, 3, 0⟩⟩ 0 480 id =
      (⟨⟨none, 0, 2, true⟩, ⟨5, 1, 3, 0⟩⟩, false)) ∧
    (maybe_resize_swap_chain ⟨⟨none, 0, 2, true⟩, ⟨5, 1, 3, 0⟩⟩ 640 480 id).2 = true ∧
    (maybe_resize_swap_chain ⟨⟨none, 0, 2, true⟩, ⟨5, 1, 3, 0⟩⟩ 640 480 id).1.wd.FrameIndex = 0 ∧
    (maybe_resize_swap_chain
      ⟨⟨none, 0, 2, true⟩, ⟨5, 1, 3, 0⟩⟩ 640 480 id).1.members.swap_chain_rebuild_ = false := by
  refine ⟨(maybe_resize_swap_chain_spec ⟨⟨none, 0, 2, false⟩, ⟨5, 1, 3, 0⟩⟩ 640 480 id).1 rfl,
    ((maybe_resize_swap_chain_spec ⟨⟨none, 0, 2, true⟩, ⟨5, 1, 3, 0⟩⟩ 0 480 id).2.1 rfl
      (Or.inl (by norm_num))).1, ?_⟩
  have h := (maybe_resize_swap_chain_spec ⟨⟨none, 0, 2, true⟩, ⟨5, 1, 3, 0⟩⟩ 640 480 id).2.2
    rfl (by norm_num) (by norm_num)
  exact ⟨h.1, h.2.1, h.2.2⟩

/-! ### Reachable `Vulkan` states and the `min_image_count_` invariant -/

/-- The states a `Vulkan` object can be in: freshly constructed (with a
default-constructed `main_window_data_`), or the result of any of the
state-changing member functions on a reachable state.  `externalWindowCall`
covers the member functions whose only effect on the modelled fields is that
an external library call may rewrite `main_window_data_`
(`cleanup_window`, and the library sides of `init` / `upload_fonts`);
no member function writes `min_image_count_` after construction. -/
inductive VkReach : VulkanObj → Prop where
  | ctor (drv : Driver) (st : VulkanMembers) :
      (vulkanCtor drv).2 = Except.ok st → VkReach ⟨st, {}⟩
  | setup (o o2 : VulkanObj) (wsi : Bool) (resize : WindowData → WindowData) :
      VkReach o → setup_window o wsi resize = .ok o2 → VkReach o2
  | render (o o2 : VulkanObj) (acquireErr : Int) (acquiredIndex : Nat)
      (restErrs : List Int) :
      VkReach o → render_frame o acquireErr acquiredIndex restErrs = .ok o2 → VkReach o2
  | present (o o2 : VulkanObj) (err : Int) (b : Bool) :
      VkReach o → present_frame o err = .ok (o2, b) → VkReach o2
  | resize (o : VulkanObj) (w h : Int) (f : WindowData → WindowData) :
      VkReach o → VkReach (maybe_resize_swap_chain o w h f).1
  | externalWindowCall (o : VulkanObj) (f : WindowData → WindowData) :
      VkReach o → VkReach ⟨o.members, f o.wd⟩

/-- C9: `min_image_count_` is 2 in every reachable state (so the invariant
`min_image_count_ >= 2` holds), and the `setup_window` branch that throws
"Need at least 2 frame buffers for swapping" is unreachable: no call to
`setup_window` from a reachable state produces that error. -/
theorem min_image_count_invariant (o : VulkanObj) (h : VkReach o) :
    2 ≤ o.members.min_image_count_ ∧
    (∀ wsi resize,
      setup_window o wsi resize ≠
        .error ⟨"Need at least 2 frame buffers for swapping, current: " ++
                  toString o.members.min_image_count_, -1⟩) := by
  have key : o.members.min_image_count_ = 2 := by
    induction h with
    | ctor drv st hok => exact (vulkanCtor_ok_state hok).2.1
    | setup o o2 wsi resize hr hok ih =>
      unfold setup_window at hok
      split at hok
      · cases hok
      · split at hok
        · cases hok
        · cases hok
          simpa using ih
    | render o o2 acquireErr acquiredIndex restErrs hr hok ih =>
      unfold render_frame at hok
      split at hok
      · cases hok
        simpa using ih
      · split at hok
        · cases hok
        · split at hok
          · cases hok
          · cases hok
            simpa using ih
    | present o o2 err b hr hok ih =>
      unfold present_frame at hok
      split at hok
      · cases hok
        simpa using ih
      · split at hok
        · cases hok
          simpa using ih
        · split at hok
          · cases hok
          · cases hok
            simpa using ih
    | resize o w h f hr ih =>
      unfold maybe_resize_swap_chain
      split
      · simpa using ih
      · split
        · simpa using ih
        · simpa using ih
    | externalWindowCall o f hr ih => simpa using ih
  refine ⟨by omega, fun wsi resize hbad => ?_⟩
  unfold setup_window at hbad
  split at hbad
  · rw [key] at hbad
    simp at hbad
    exact absurd hbad (by decide)
  · rw [if_neg (by omega)] at hbad
    cases hbad

/-- Witness for C9: the state constructed by an all-success single-GPU
driver is reachable, has `min_image_count_ = 2`, and `setup_window` on it
never reports the too-few-framebuffers error. -/
theorem min_image_count_invariant_witness :
    2 ≤ (VulkanObj.mk ⟨some ⟨7, 2⟩, 0, 2, false⟩ {}).members.min_image_count_ ∧
    (∀ wsi resize,
      setup_window (VulkanObj.mk ⟨some ⟨7, 2⟩, 0, 2, false⟩ {}) wsi resize ≠
        .error ⟨"Need at least 2 frame buffers for swapping, current: " ++
                  toString (VulkanObj.mk
                    ⟨some ⟨7, 2⟩, 0, 2, false⟩ {}).members.min_image_count_, -1⟩) :=
  min_image_count_invariant (VulkanObj.mk ⟨some ⟨7, 2⟩, 0, 2, false⟩ {})
    (VkReach.ctor (Driver.mk 0 0 0 [⟨7, 2⟩] [⟨1⟩] 0 0) ⟨some ⟨7, 2⟩, 0, 2, false⟩ rfl)

/-! ### `Window` (imgui_vulkan.hpp lines 134-202, imgui_vulkan.cpp 561-683) -/

/-- The fields of an `SDL_Event` inspected by `Window::draw`. -/
structure SdlEvent where
  eventType : Nat
  windowEvent : Nat
  windowID : Nat
  deriving DecidableEq, Repr

/-- The value assigned to `running_` for one polled event
(imgui_vulkan.cpp lines 658-660):
`event.type != SDL_QUIT && !(event.type == SDL_WINDOWEVENT &&
event.window.event == SDL_WINDOWEVENT_CLOSE &&
event.window.windowID == SDL_GetWindowID(window_))`. -/
def eventKeepsRunning (myWindowID : Nat) (e : SdlEvent) : Bool :=
  e.eventType != SDL_QUIT &&
  !(e.eventType == SDL_WINDOWEVENT && e.windowEvent == SDL_WINDOWEVENT_CLOSE &&
    e.windowID == myWindowID)

/-- The value of `running_` after one `Window::draw` call that polls `events`
(in order).  For each event the loop body first assigns
`running_ := eventKeepsRunning`, then runs the frame, during which the
subclass `on_gui` may call `close()` (modelled by `guiCloses`), which assigns
`running_ := false`.  The previous value of `running_` is overwritten by
every event; with no events it is unchanged. -/
def drawRunning (myWindowID : Nat) (guiCloses : SdlEvent → Bool)
    (events : List SdlEvent) (running : Bool) : Bool :=
  events.foldl (fun _ e => if guiCloses e then false else eventKeepsRunning myWindowID e)
    running

/-- C6 failing input: `Window::draw` polls an `SDL_QUIT` event followed by an
ordinary event (`SDL_MOUSEMOTION`, type 1024) in the same batch.  Processing
the quit event assigns `running_ = false`, but the per-event assignment runs
again for the following event and overwrites it with `true`, so the
`while (running_)` loop in `Window::show` performs a further iteration.
Alone, the quit event does stop the loop (second conjunct), and even a
`close()` call from `on_gui` is overwritten by a following event (third
conjunct). -/
theorem draw_quit_event_overwritten :
    drawRunning 1 (fun _ => false)
      [⟨SDL_QUIT, 0, 0⟩, ⟨1024, 0, 0⟩] true = true ∧
    drawRunning 1 (fun _ => false) [⟨SDL_QUIT, 0, 0⟩] true = false ∧
    drawRunning 1 (fun e => e.eventType == SDL_QUIT)
      [⟨SDL_QUIT, 0, 0⟩, ⟨1024, 0, 0⟩] true = true := by decide

/-- The `Window` members (imgui_vulkan.hpp lines 172-179): the stored name,
the `size_` array, `running_`, and whether `window_` / `vulkan_` are
non-null. -/
structure WindowState where
  name_ : String
  size_ : Int × Int
  running_ : Bool
  hasSdlWindow : Bool
  hasVulkan : Bool
  deriving DecidableEq, Repr

/-- The `Window` constructor (imgui_vulkan.cpp line 561):
`name_(std::move(name)), size_({width, height})`, the other members at their
in-class initialisers (`running_ = false`, null `window_` and `vulkan_`). -/
def Window_new (name : String) (width height : Int) : WindowState :=
  ⟨name, (width, height), false, false, false⟩

/-- Member function `Window::close` (imgui_vulkan.hpp line 194): `running_ = false`. -/
def Window_close (st : WindowState) : WindowState := { st with running_ := false }

/-- The setup part of `Window::show` (imgui_vulkan.cpp lines 565-625):
creates the SDL window (reading `size_`), the `Vulkan` object, and sets
`running_ = true`. -/
def Window_show_setup (st : WindowState) : WindowState :=
  { st with hasSdlWindow := true, hasVulkan := true, running_ := true }

/-- One `Window::draw` call (imgui_vulkan.cpp lines 647-683) as it acts on
the `Window` members: only `running_` changes, per `drawRunning`. -/
def Window_draw (st : WindowState) (myWindowID : Nat) (guiCloses : SdlEvent → Bool)
    (events : List SdlEvent) : WindowState :=
  { st with running_ := drawRunning myWindowID guiCloses events st.running_ }

/-- The scope guard at the end of `Window::show` (imgui_vulkan.cpp lines
628-639): destroys the SDL window and the `Vulkan` object and nulls both
members. -/
def Window_show_cleanup (st : WindowState) : WindowState :=
  { st with hasSdlWindow := false, hasVulkan := false }

/-- Accessor `Window::width` (imgui_vulkan.hpp line 200): `size_[0]`. -/
def Window_width (st : WindowState) : Int := st.size_.1

/-- Accessor `Window::height` (imgui_vulkan.hpp line 202): `size_[1]`. -/
def Window_height (st : WindowState) : Int := st.size_.2

/-- The states a `Window` constructed with the given arguments can be in,
closed under all the operations that act on its members. -/
inductive WindowReach (name : String) (width height : Int) : WindowState → Prop where
  | ctor : WindowReach name width height (Window_new name width height)
  | close (st : WindowState) :
      WindowReach name width height st → WindowReach name width height (Window_close st)
  | showSetup (st : WindowState) :
      WindowReach name width height st →
      WindowReach name width height (Window_show_setup st)
  | draw (st : WindowState) (myWindowID : Nat) (guiCloses : SdlEvent → Bool)
      (events : List SdlEvent) :
      WindowReach name width height st →
      WindowReach name width height (Window_draw st myWindowID guiCloses events)
  | showCleanup (st : WindowState) :
      WindowReach name width height st →
      WindowReach name width height (Window_show_cleanup st)

/-- C10: `Window::width()` and `Window::height()` return exactly the
construction arguments in every reachable state: no operation (showing,
drawing, closing, cleanup) writes `size_` after construction. -/
theorem window_size_constant (name : String) (width height : Int) (st : WindowState)
    (h : WindowReach name width height st) :
    Window_width st = width ∧ Window_height st = height := by
  induction h with
  | ctor => exact ⟨rfl, rfl⟩
  | close st hr ih => exact ih
  | showSetup st hr ih => exact ih
  | draw st myWindowID guiCloses events hr ih => exact ih
  | showCleanup st hr ih => exact ih

/-- Witness for C10: a window "Example" of size 1280 x 720 after
show-setup, a draw that processes a quit event, and cleanup. -/
theorem window_size_constant_witness :
    Window_width (Window_show_cleanup (Window_draw
      (Window_show_setup (Window_new "Example" 1280 720)) 1 (fun _ => false)
      [⟨SDL_QUIT, 0, 0⟩])) = 1280 ∧
    Window_height (Window_show_cleanup (Window_draw
      (Window_show_setup (Window_new "Example" 1280 720)) 1 (fun _ => false)
      [⟨SDL_QUIT, 0, 0⟩])) = 720 :=
  window_size_constant "Example" 1280 720 _
    (WindowReach.showCleanup _ (WindowReach.draw _ 1 (fun _ => false)
      [⟨SDL_QUIT, 0, 0⟩] (WindowReach.showSetup _ WindowReach.ctor)))

/-! ### `Application::run` (imgui_vulkan.cpp lines 694-714) -/

/-- How `Window::show` terminates, as seen by the `try` block in
`Application::run`: normal return, a thrown `GUIError`, a thrown
`std::exception` of another type, or some other thrown object. -/
inductive ShowOutcome where
  | normal : ShowOutcome
  | guiError (e : GUIError) : ShowOutcome
  | stdException (what : String) : ShowOutcome
  | otherThrow : ShowOutcome
  deriving DecidableEq, Repr

/-- What `Application::run` does: its `int` result, whether it printed a
message, and whether `window_->show()` was invoked. -/
structure RunResult where
  code : Int
  printed : Bool
  ranShow : Bool
  deriving DecidableEq, Repr

/-- Member function `Application::run` (imgui_vulkan.cpp lines 694-714): `window_` null
prints "No window given" and returns -3 without running anything; otherwise
`show()` runs inside `try`, returning 0 on normal return; a caught
`GUIError e` is reported and its `error()` returned; a caught
`std::exception` is reported and -1 returned; any other thrown object is
reported and -2 returned.  The function is total: every outcome is caught
and mapped to a return code, never rethrown. -/
def Application_run : Option ShowOutcome → RunResult
  | none => ⟨-3, true, false⟩
  | some .normal => ⟨0, false, true⟩
  | some (.guiError e) => ⟨e.error, true, true⟩
  | some (.stdException _) => ⟨-1, true, true⟩
  | some .otherThrow => ⟨-2, true, true⟩

/-- C3: `Application::run` never propagates an exception (it is a total
function of the outcome of `show`) and returns: -3 without running anything
when the window pointer is null; 0 when `show` returns normally; the
`GUIError`'s `error()` code when `show` throws a `GUIError`; -1 for any
other `std::exception`; -2 for any other thrown object; printing a message
in every failure case. -/
theorem application_run_spec (w : Option ShowOutcome) :
    (w = none → Application_run w = ⟨-3, true, false⟩) ∧
    (w = some .normal → Application_run w = ⟨0, false, true⟩) ∧
    (∀ e, w = some (.guiError e) → Application_run w = ⟨e.error, true, true⟩) ∧
    (∀ s, w = some (.stdException s) → Application_run w = ⟨-1, true, true⟩) ∧
    (w = some .otherThrow → Application_run w = ⟨-2, true, true⟩) := by
  refine ⟨fun h => ?_, fun h => ?_, fun e h => ?_, fun s h => ?_, fun h => ?_⟩
  all_goals subst h
  all_goals rfl

/-- Witness for C3: all five outcomes at concrete inputs, in particular a
`GUIError` with code -7 (VK_ERROR_EXTENSION_NOT_PRESENT). -/
theorem application_run_spec_witness :
    Application_run none = ⟨-3, true, false⟩ ∧
    Application_run (some .normal) = ⟨0, false, true⟩ ∧
    Application_run (some (.guiError ⟨"VK_ERROR_EXTENSION_NOT_PRESENT", -7⟩)) =
      ⟨(GUIError.mk "VK_ERROR_EXTENSION_NOT_PRESENT" (-7)).error, true, true⟩ ∧
    Application_run (some (.stdException "bad_alloc")) = ⟨-1, true, true⟩ ∧
    Application_run (some .otherThrow) = ⟨-2, true, true⟩ :=
  ⟨(application_run_spec none).1 rfl,
   (application_run_spec (some .normal)).2.1 rfl,
   (application_run_spec (some (.guiError ⟨"VK_ERROR_EXTENSION_NOT_PRESENT", -7⟩))).2.2.1
     ⟨"VK_ERROR_EXTENSION_NOT_PRESENT", -7⟩ rfl,
   (application_run_spec (some (.stdException "bad_alloc"))).2.2.2.1 "bad_alloc" rfl,
   (application_run_spec (some .otherThrow)).2.2.2.2 rfl⟩

end ImguiVulkan
